import Mathlib

/-!
Shallow embedding of the LEMINO AI product-studio application
(the inlined `index.tsx` bundle): the Gemini service helpers
(`getAspectRatioDescription`, `executeImageGeneration`,
`generateCharacterPlacementImage`, `generateProductConceptImage`),
the app-level generation orchestrator (`handleGenerate`,
`handleStartOver`, the capped history list) and the image-intake
data-URL plumbing (`parseDataUrl`, the uploader round trip).

Stateful React code is embedded as explicit state passing over an
`AppData` record; the asynchronous Gemini API is an oracle argument
(one `ApiResponse` per dispatched request), and `Promise.all` over the
batch is modelled as left-to-right collection of the per-request
outcomes (every rejection message the requests can produce carries the
same nonempty wrapper prefix, so which rejection wins the race is not
observable in the properties below). JS exceptions become
`Except String`; JS `null`/`undefined` become `Option`.
-/

namespace Lemino

/-- A request content part, as assembled for the generation API:
either inline image data or instruction text. -/
inductive Part where
  | inlineData (data : String) (mimeType : String)
  | text (t : String)
deriving DecidableEq

/-- Decoded data-URL payload `{ base64, mimeType }`. -/
structure ImagePayload where
  base64 : String
  mimeType : String
deriving DecidableEq

/-- The `imageData` record returned by `executeImageGeneration`:
`{ data, mimeType }`. An absent/empty `data` field is modelled as `""`
(falsy in the source's `!imagePart?.inlineData?.data` check). -/
structure GenImage where
  data : String
  mimeType : String
deriving DecidableEq

/-- One part of an API response: may carry `inlineData` and/or `text`.
`Option` models JS absent/undefined fields; an empty `text` string is
falsy in the source's `responseParts.find(p => p.text)`. -/
structure RespPart where
  inlineData : Option GenImage
  text : Option String
deriving DecidableEq

/-- A raw API response, reduced to what `executeImageGeneration` reads:
`response.candidates?.[0]?.content?.parts`, which may be missing
(`none`) or a list of parts. -/
abbrev ApiResponse := Option (List RespPart)

/-- `base64ToGenerativePart` from the service: wraps base64 data and a
MIME type as an inline-data request part. -/
def base64ToGenerativePart (base64 mimeType : String) : Part :=
  Part.inlineData base64 mimeType

/-- `getAspectRatioDescription(ratio, width, height)`: the descriptive
clause rendered into the prompt templates. Width and height are the
custom dimensions, natural numbers as stored by the UI (its setters
clamp with `Math.max(0, parseInt(v, 10) || 0)`). -/
def getAspectRatioDescription (ratio : String) (width height : Nat) : String :=
  if ratio = "custom" ∧ 0 < width ∧ 0 < height then
    "a (" ++ toString width ++ ":" ++ toString height ++ ")"
  else if ratio = "1:1" then "a square (1:1)"
  else if ratio = "3:4" then "a portrait (3:4)"
  else if ratio = "4:3" then "a landscape (4:3)"
  else "a (" ++ ratio ++ ")"

/-- The text interpolated into the thrown message when no image part is
found: the first part with nonempty `text`, else `"<no text>"`
(`responseParts.find(p => p.text)?.text ?? "<no text>"`). -/
def responseTextOrPlaceholder (responseParts : List RespPart) : String :=
  match responseParts.find? (fun p => p.text.getD "" != "") with
  | some p => p.text.getD "<no text>"
  | none => "<no text>"

/-- `executeImageGeneration`, response-handling half: demands a parts
list, finds the first part with an `inlineData` field, and returns its
payload when the data is nonempty; otherwise throws a descriptive
error (including any text explanation the model returned). -/
def executeImageGeneration (response : ApiResponse) : Except String GenImage :=
  match response with
  | none => Except.error "Invalid response from model. No parts found."
  | some responseParts =>
    match responseParts.find? (fun p => p.inlineData.isSome) with
    | some imagePart =>
      match imagePart.inlineData with
      | some d =>
        if d.data = "" then
          Except.error ("Model did not return an image. Response: " ++
            responseTextOrPlaceholder responseParts)
        else Except.ok d
      | none =>
        Except.error ("Model did not return an image. Response: " ++
          responseTextOrPlaceholder responseParts)
    | none =>
      Except.error ("Model did not return an image. Response: " ++
        responseTextOrPlaceholder responseParts)

/-- The optional trailing user-request clause shared by three of the
four templates: `${userPrompt ? `\nADDITIONAL USER REQUEST: "${userPrompt}"` : ''}`. -/
def additionalUserRequest (userPrompt : String) : String :=
  if userPrompt = "" then ""
  else "\nADDITIONAL USER REQUEST: \"" ++ userPrompt ++ "\""

/-- Character-mode template when an outfit image is supplied (the
third image): verbatim from `generateCharacterPlacementImage`. -/
def characterOutfitPrompt (userPrompt aspectRatio : String)
    (customWidth customHeight : Nat) : String :=
  "You are a professional digital artist. Your task is to dress a character in a specific outfit and have them interact with a product.

INSTRUCTIONS:
1.  Analyze the first image, which contains the CHARACTER. Pay attention to their posture, lighting, and environment.
2.  Analyze the second image, which contains the PRODUCT. Note its shape, size, and branding.
3.  Analyze the third image, which contains the OUTFIT.
4.  Create a NEW, high-quality, photorealistic image where the CHARACTER from the first image is wearing the OUTFIT from the third image, and is naturally interacting with, holding, or using the PRODUCT from the second image.
5.  The final image should look like a single, cohesive photograph. The lighting on the product and outfit must match the lighting on the character and the scene.
6.  Maintain the character's appearance and identity (face, etc.), but change their clothing to match the provided OUTFIT.
7.  Maintain the product's appearance and branding.
8.  The final image MUST have " ++ getAspectRatioDescription aspectRatio customWidth customHeight ++ " aspect ratio.
9.  The background can be inspired by the character's image or a simple, neutral studio background if the original is too complex.
" ++ additionalUserRequest userPrompt ++ "

OUTPUT:
- You MUST return only the final image.
- DO NOT return any text, JSON, or other data."

/-- Character-mode template when no outfit image is supplied: verbatim
from `generateCharacterPlacementImage`. -/
def characterBasicPrompt (userPrompt aspectRatio : String)
    (customWidth customHeight : Nat) : String :=
  "You are a professional digital artist specializing in photorealistic product placement. Your task is to seamlessly integrate a product into a scene with a character.

INSTRUCTIONS:
1.  Analyze the first image, which contains the CHARACTER. Pay attention to their posture, lighting, and environment.
2.  Analyze the second image, which contains the PRODUCT. Note its shape, size, and branding.
3.  Create a NEW, high-quality, photorealistic image where the CHARACTER from the first image is naturally interacting with, holding, or using the PRODUCT from the second image.
4.  The final image should look like a single, cohesive photograph. The lighting on the product must match the lighting on the character.
5.  Maintain the character's appearance and identity. Do not change their face or clothing unless necessary for the interaction.
6.  Maintain the product's appearance and branding.
7.  The final image MUST have " ++ getAspectRatioDescription aspectRatio customWidth customHeight ++ " aspect ratio.
8.  The background can be inspired by the character's image or a simple, neutral studio background if the original is too complex.
" ++ additionalUserRequest userPrompt ++ "

OUTPUT:
- You MUST return only the final image.
- DO NOT return any text, JSON, or other data."

/-- Product-mode template when a background image is supplied (the
second image): verbatim from `generateProductConceptImage`. -/
def productBackgroundPrompt (userPrompt aspectRatio : String)
    (customWidth customHeight : Nat) : String :=
  "You are a professional product photographer and digital artist. Your task is to place the product from the first image into the background provided in the second image.
    
INSTRUCTIONS:
1.  Analyze the first image to understand the PRODUCT.
2.  Analyze the second image which is the BACKGROUND scene.
3.  Create a NEW, high-quality, photorealistic image that seamlessly places the PRODUCT into the BACKGROUND.
4.  The lighting, shadows, and reflections on the product MUST match the new environment perfectly.
5.  The final image should be a convincing and aesthetically pleasing product photograph.
6.  Do not change the product itself or the background. Only integrate the product into the background.
7.  The final image MUST have " ++ getAspectRatioDescription aspectRatio customWidth customHeight ++ " aspect ratio.
" ++ additionalUserRequest userPrompt ++ "

OUTPUT:
- You MUST return only the final image.
- DO NOT return any text, JSON, or other data."

/-- Product-mode template when no background image is supplied, with
the user's scene description interpolated: verbatim from
`generateProductConceptImage`. -/
def productScenePrompt (userPrompt aspectRatio : String)
    (customWidth customHeight : Nat) : String :=
  "You are a professional product photographer and digital artist. Your task is to place the product from the provided image into a new, beautifully composed scene.
    
INSTRUCTIONS:
1.  Analyze the provided image to understand the PRODUCT.
2.  Read the user's description of the desired scene.
3.  Create a NEW, high-quality, photorealistic image that places the product into the scene described by the user.
4.  The lighting, shadows, and reflections on the product MUST match the new environment perfectly.
5.  The final image should be a convincing and aesthetically pleasing product photograph.
6.  Do not change the product itself.
7.  The final image MUST have " ++ getAspectRatioDescription aspectRatio customWidth customHeight ++ " aspect ratio.

USER SCENE DESCRIPTION: \"" ++ userPrompt ++ "\"

OUTPUT:
- You MUST return only the final image.
- DO NOT return any text, JSON, or other data."

/-- The fixed text of the scene-description template before the USER
SCENE DESCRIPTION clause: a derived decomposition of
`productScenePrompt`, used to state that the user's scene text appears
verbatim inside that clause. -/
def productScenePromptBefore (aspectRatio : String)
    (customWidth customHeight : Nat) : String :=
  "You are a professional product photographer and digital artist. Your task is to place the product from the provided image into a new, beautifully composed scene.
    
INSTRUCTIONS:
1.  Analyze the provided image to understand the PRODUCT.
2.  Read the user's description of the desired scene.
3.  Create a NEW, high-quality, photorealistic image that places the product into the scene described by the user.
4.  The lighting, shadows, and reflections on the product MUST match the new environment perfectly.
5.  The final image should be a convincing and aesthetically pleasing product photograph.
6.  Do not change the product itself.
7.  The final image MUST have " ++ getAspectRatioDescription aspectRatio customWidth customHeight ++ " aspect ratio.

"

/-- The fixed text of the scene-description template after the USER
SCENE DESCRIPTION clause. -/
def productScenePromptAfter : String :=
  "

OUTPUT:
- You MUST return only the final image.
- DO NOT return any text, JSON, or other data."

/-- The parts list assembled by `generateCharacterPlacementImage`:
character image, product image, optional outfit image, then the
instruction text. -/
def characterPlacementParts (characterImage productImage : ImagePayload)
    (outfitImage : Option ImagePayload) (userPrompt aspectRatio : String)
    (customWidth customHeight : Nat) : List Part :=
  let characterPart := base64ToGenerativePart characterImage.base64 characterImage.mimeType
  let productPart := base64ToGenerativePart productImage.base64 productImage.mimeType
  match outfitImage with
  | some o =>
    [characterPart, productPart, base64ToGenerativePart o.base64 o.mimeType,
      Part.text (characterOutfitPrompt userPrompt aspectRatio customWidth customHeight)]
  | none =>
    [characterPart, productPart,
      Part.text (characterBasicPrompt userPrompt aspectRatio customWidth customHeight)]

/-- The parts list assembled by `generateProductConceptImage`:
product image, optional background image, then the instruction text. -/
def productConceptParts (productImage : ImagePayload)
    (backgroundImage : Option ImagePayload) (userPrompt aspectRatio : String)
    (customWidth customHeight : Nat) : List Part :=
  let productPart := base64ToGenerativePart productImage.base64 productImage.mimeType
  match backgroundImage with
  | some b =>
    [productPart, base64ToGenerativePart b.base64 b.mimeType,
      Part.text (productBackgroundPrompt userPrompt aspectRatio customWidth customHeight)]
  | none =>
    [productPart,
      Part.text (productScenePrompt userPrompt aspectRatio customWidth customHeight)]

/-- `generateCharacterPlacementImage`: assembles its parts and runs the
generation; its catch block rewraps any failure as
`Failed to generate image. <message>`. Returns the dispatched request
(the parts) together with the settled outcome for the supplied API
response. -/
def generateCharacterPlacementImage (characterImage productImage : ImagePayload)
    (outfitImage : Option ImagePayload) (userPrompt aspectRatio : String)
    (customWidth customHeight : Nat) (response : ApiResponse) :
    List Part × Except String GenImage :=
  (characterPlacementParts characterImage productImage outfitImage
      userPrompt aspectRatio customWidth customHeight,
   match executeImageGeneration response with
   | Except.ok g => Except.ok g
   | Except.error e => Except.error ("Failed to generate image. " ++ e))

/-- `generateProductConceptImage`: assembles its parts and runs the
generation; its catch block rewraps any failure as
`Failed to generate product concept. <message>`. -/
def generateProductConceptImage (productImage : ImagePayload)
    (backgroundImage : Option ImagePayload) (userPrompt aspectRatio : String)
    (customWidth customHeight : Nat) (response : ApiResponse) :
    List Part × Except String GenImage :=
  (productConceptParts productImage backgroundImage
      userPrompt aspectRatio customWidth customHeight,
   match executeImageGeneration response with
   | Except.ok g => Except.ok g
   | Except.error e => Except.error ("Failed to generate product concept. " ++ e))

/-- `s` starts with `pre`, checked on the underlying character lists. -/
def strStartsWith (s pre : String) : Bool :=
  pre.data.isPrefixOf s.data

/-- Drop the first `n` characters of `s`. -/
def strDropChars (s : String) (n : Nat) : String :=
  ⟨s.data.drop n⟩

/-- JS regexp line terminators, which `.` in `parseDataUrl`'s pattern
(no `s` flag) does not match. -/
def isLineTerminator (c : Char) : Bool :=
  c = '\n' || c = '\r' || c = '\u2028' || c = '\u2029'

/-- One alternative of `parseDataUrl`'s anchored regexp
`^data:(image\/(?:jpeg|png|webp));base64,(.*)$`: the literal prefix for
`mime`, then a remainder free of line terminators (which `.` cannot
match), captured as the base64 payload. -/
def dataUrlForMime (dataUrl mime : String) : Option ImagePayload :=
  let pre := "data:" ++ mime ++ ";base64,"
  if strStartsWith dataUrl pre then
    let rest := strDropChars dataUrl pre.data.length
    if rest.data.all (fun c => !isLineTerminator c) then some ⟨rest, mime⟩
    else none
  else none

/-- The full regexp match of `parseDataUrl` over the three admitted MIME
types (their literal prefixes are mutually exclusive, so alternation
order is immaterial). -/
def matchImageDataUrl (dataUrl : String) : Option ImagePayload :=
  (dataUrlForMime dataUrl "image/jpeg").orElse fun _ =>
    (dataUrlForMime dataUrl "image/png").orElse fun _ =>
      dataUrlForMime dataUrl "image/webp"

/-- `parseDataUrl` from `handleGenerate`: decode a stored data-URL
string into `{ mimeType, base64 }` or throw `Invalid image data URL.`. -/
def parseDataUrl (dataUrl : String) : Except String ImagePayload :=
  match matchImageDataUrl dataUrl with
  | some p => Except.ok p
  | none => Except.error "Invalid image data URL."

/-- The frozen `AppState` enum: `Idle`, `Loading`, `Result`, `Error`. -/
inductive AppPhase where
  | Idle
  | Loading
  | Result
  | Error
deriving DecidableEq

/-- A history entry as built in `handleGenerate`: the generated images
plus a snapshot of the inputs that produced them. -/
structure HistoryItem where
  id : Nat
  images : List String
  prompt : String
  mode : String
  characterImage : Option String
  productImage : Option String
  outfitImage : Option String
  backgroundImage : Option String
deriving DecidableEq

/-- The `App` component's state slots (`useState` hooks), minus the
zoom-modal bookkeeping which no handler below reads. -/
structure AppData where
  appState : AppPhase
  mode : String
  characterImage : Option String
  productImage : Option String
  outfitImage : Option String
  backgroundImage : Option String
  characterPrompt : String
  productPrompt : String
  numberOfImages : Nat
  aspectRatio : String
  customWidth : Nat
  customHeight : Nat
  resultImages : List String
  error : Option String
  history : List HistoryItem
deriving DecidableEq

/-- The `useState` initial values of the `App` component. -/
def initialAppData : AppData :=
  { appState := AppPhase.Idle
    mode := "character"
    characterImage := none
    productImage := none
    outfitImage := none
    backgroundImage := none
    characterPrompt := ""
    productPrompt := ""
    numberOfImages := 1
    aspectRatio := "1:1"
    customWidth := 1024
    customHeight := 1024
    resultImages := []
    error := none
    history := [] }

/-- The UI's custom width/height setter:
`Math.max(0, parseInt(value, 10) || 0)` — any natural number, zero
included, is storable. -/
def uiDimValue (raw : Int) : Nat :=
  (max 0 raw).toNat

/-- `const currentPrompt = mode === 'character' ? characterPrompt : productPrompt`. -/
def currentPromptOf (s : AppData) : String :=
  if s.mode = "character" then s.characterPrompt else s.productPrompt

/-- The three validation checks at the top of `handleGenerate`, in
source order: the first failing check's message, or `none` when
validation passes. -/
def validationError (s : AppData) : Option String :=
  if s.mode = "character" ∧ (s.characterImage = none ∨ s.productImage = none) then
    some "Please upload both a character and a product image."
  else if s.mode = "product" ∧ s.productImage = none then
    some "Please upload a product image."
  else if s.mode = "product" ∧ (currentPromptOf s).trim = "" ∧ s.backgroundImage = none then
    some "Please describe the scene or provide a background image for the product concept."
  else none

/-- `img ? parseDataUrl(img) : null` — the optional outfit/background
image parse inside the dispatch loop. -/
def parseOptionalImage (img : Option String) : Except String (Option ImagePayload) :=
  match img with
  | some u => Except.map some (parseDataUrl u)
  | none => Except.ok none

/-- One iteration of `handleGenerate`'s dispatch loop: parse the
required stored data-URLs (a failure here throws out of the loop) and
build the mode-appropriate generation task. The JS non-null assertions
(`characterImage!`, `productImage!`) are rendered as `.getD ""`, which
`parseDataUrl` rejects exactly where the source would only reach a
null image on an unreachable path. -/
def buildTask (s : AppData) (currentPrompt : String) (response : ApiResponse) :
    Except String (List Part × Except String GenImage) :=
  if s.mode = "character" then do
    let charImgParts ← parseDataUrl (s.characterImage.getD "")
    let prodImgParts ← parseDataUrl (s.productImage.getD "")
    let outfitImgParts ← parseOptionalImage s.outfitImage
    Except.ok (generateCharacterPlacementImage charImgParts prodImgParts outfitImgParts
      currentPrompt s.aspectRatio s.customWidth s.customHeight response)
  else do
    let prodImgParts ← parseDataUrl (s.productImage.getD "")
    let backgroundImgParts ← parseOptionalImage s.backgroundImage
    Except.ok (generateProductConceptImage prodImgParts backgroundImgParts
      currentPrompt s.aspectRatio s.customWidth s.customHeight response)

/-- The per-result mapping after `Promise.all`:
`!result.imageData.data` throws, otherwise the displayable data-URL
`data:<mimeType>;base64,<data>` is produced. -/
def toDisplayUrl (g : GenImage) : Except String String :=
  if g.data = "" then
    Except.error "One or more image generations failed. The model did not return a valid image."
  else Except.ok ("data:" ++ g.mimeType ++ ";base64," ++ g.data)

/-- The displayable data-URL built from a generation result:
`data:<mimeType>;base64,<data>`. -/
def displayUrl (g : GenImage) : String :=
  "data:" ++ g.mimeType ++ ";base64," ++ g.data

/-- The observable effect of one `handleGenerate` call: the final app
state once the async work settles, and the batch of requests (parts
lists) that was dispatched to the API. -/
structure GenStep where
  state : AppData
  requests : List (List Part)
deriving DecidableEq

/-- `handleGenerate`, as a state transformer. `now` is `Date.now()` and
`responses i` is the API's response to the `i`-th request of the
batch. The transient `setAppState(Loading)` between validation and
settlement is overwritten by the final transition and is not part of
the returned state. On a parse failure the loop throws at its first
iteration (every iteration parses the same strings), so no request is
dispatched. -/
def handleGenerate (s0 : AppData) (now : Nat) (responses : Nat → ApiResponse) : GenStep :=
  let s := { s0 with error := none }
  let currentPrompt := currentPromptOf s
  match validationError s with
  | some msg => ⟨{ s with error := some msg }, []⟩
  | none =>
    match (List.range s.numberOfImages).mapM
        (fun i => buildTask s currentPrompt (responses i)) with
    | Except.error msg => ⟨{ s with error := some msg, appState := AppPhase.Idle }, []⟩
    | Except.ok tasks =>
      match tasks.mapM (fun t => t.2) with
      | Except.error msg =>
        ⟨{ s with error := some msg, appState := AppPhase.Idle }, tasks.map (fun t => t.1)⟩
      | Except.ok results =>
        match results.mapM toDisplayUrl with
        | Except.error msg =>
          ⟨{ s with error := some msg, appState := AppPhase.Idle }, tasks.map (fun t => t.1)⟩
        | Except.ok generatedImages =>
          let newHistoryItem : HistoryItem :=
            { id := now
              images := generatedImages
              prompt := currentPrompt
              mode := s.mode
              characterImage := s.characterImage
              productImage := s.productImage
              outfitImage := s.outfitImage
              backgroundImage := s.backgroundImage }
          ⟨{ s with
              history := (newHistoryItem :: s.history).take 10
              resultImages := generatedImages
              appState := AppPhase.Result }, tasks.map (fun t => t.1)⟩

/-- `handleStartOver`: back to `Idle`, clearing images, prompts,
results and error, resetting the image count to 1 and the aspect
ratio to `1:1`. (It does not touch `mode`, the custom dimensions or
`history`.) -/
def handleStartOver (s : AppData) : AppData :=
  { s with
    appState := AppPhase.Idle
    characterImage := none
    productImage := none
    outfitImage := none
    backgroundImage := none
    characterPrompt := ""
    productPrompt := ""
    numberOfImages := 1
    aspectRatio := "1:1"
    resultImages := []
    error := none }

/-- The standard base64 alphabet. -/
def base64Alphabet : List Char :=
  "ABCDEFGHIJKLMNOPQRSTUVWXYZabcdefghijklmnopqrstuvwxyz0123456789+/".data

/-- The base64 digit for a 6-bit value. -/
def b64Char (n : Nat) : Char :=
  base64Alphabet.getD (n % 64) 'A'

/-- Standard base64 of a byte sequence, three bytes to four digits with
`=` padding. -/
def base64EncodeChars : List Nat → List Char
  | [] => []
  | [b1] => [b64Char (b1 / 4), b64Char (b1 % 4 * 16), '=', '=']
  | [b1, b2] => [b64Char (b1 / 4), b64Char (b1 % 4 * 16 + b2 / 16), b64Char (b2 % 16 * 4), '=']
  | b1 :: b2 :: b3 :: rest =>
    b64Char (b1 / 4) :: b64Char (b1 % 4 * 16 + b2 / 16) ::
      b64Char (b2 % 16 * 4 + b3 / 64) :: b64Char (b3 % 64) :: base64EncodeChars rest

/-- Standard base64 of a byte sequence, as a string. -/
def base64Encode (bytes : List Nat) : String :=
  ⟨base64EncodeChars bytes⟩

/-- A file as the picker hands it over: a MIME type and its bytes. -/
structure BrowserFile where
  mimeType : String
  bytes : List Nat
deriving DecidableEq

/-- Modelled from the spec: the browser `FileReader.readAsDataURL` call
in `ImageUploader.handleFileChange` (the reader is a platform API, not
repository code; the spec's Image Intake contract says it "reads a
user-selected file fully into memory, encodes as a data-URL"). It
yields `data:<file MIME type>;base64,<base64 of the bytes>`. -/
def readAsDataURL (f : BrowserFile) : String :=
  "data:" ++ f.mimeType ++ ";base64," ++ base64Encode f.bytes

/-- The file input's `accept="image/*"` filter: any image MIME type. -/
def pickerAccepts (f : BrowserFile) : Bool :=
  strStartsWith f.mimeType "image/"

/-- `ImageUploader.handleFileChange`: when a file was selected, read it
as a data URL and pass the resulting string to `onImageUpload`, which
the app stores as the preview image source. -/
def handleFileChange (file : Option BrowserFile) : Option String :=
  file.map readAsDataURL

/-- `pat` occurs as a contiguous run inside `l`. -/
def listHasSub (pat : List Char) : List Char → Bool
  | [] => pat.isEmpty
  | c :: rest => pat.isPrefixOf (c :: rest) || listHasSub pat rest

/-- `pat` occurs as a contiguous substring of `s`. -/
def strContains (s pat : String) : Bool :=
  listHasSub pat.data s.data

/-- A response part carrying inline image data: an `inlineData` field
whose `data` is nonempty. -/
def carriesImageData (p : RespPart) : Bool :=
  match p.inlineData with
  | some d => d.data != ""
  | none => false

/-- The stored image slot, when filled, holds a string `parseDataUrl`
accepts. -/
def optionParses (img : Option String) : Bool :=
  match img with
  | some u => (parseDataUrl u).isOk
  | none => true

/-- A state from which `handleGenerate` dispatches a batch: the UI
validation passes and every stored image the active mode reads is a
well-formed data-URL (which holds for images that went through the
uploader). -/
def validInputs (s : AppData) : Bool :=
  if s.mode = "character" then
    s.characterImage.isSome && optionParses s.characterImage &&
      s.productImage.isSome && optionParses s.productImage &&
      optionParses s.outfitImage
  else if s.mode = "product" then
    s.productImage.isSome && optionParses s.productImage &&
      (!(currentPromptOf s).trim.isEmpty || s.backgroundImage.isSome) &&
      optionParses s.backgroundImage
  else false

/-- A canonical successful API response: one part with inline image
data. -/
def successResponse : ApiResponse :=
  some [{ inlineData := some ⟨"IMG", "image/png"⟩, text := none }]

/-- A concrete session start: character mode with a character and a
product image uploaded. -/
def demoAppData : AppData :=
  { initialAppData with
      characterImage := some "data:image/png;base64,CCC"
      productImage := some "data:image/jpeg;base64,PPP" }

/-- `n` successive successful generations from `s`, the `k`-th
(1-based) carried out at `Date.now() = k`. -/
def genSession (s : AppData) : Nat → AppData
  | 0 => s
  | n + 1 => (handleGenerate (genSession s n) (n + 1) (fun _ => successResponse)).state

lemma string_ext {a b : String} (h : a.data = b.data) : a = b := by
  cases a
  cases b
  exact congrArg String.mk h

lemma append_ne_empty_left (a b : String) (ha : a ≠ "") : a ++ b ≠ "" := by
  intro hc
  apply ha
  have hd := congrArg String.data hc
  rw [String.data_append] at hd
  exact string_ext (List.append_eq_nil.mp hd).1

lemma execOk_data_ne {resp : ApiResponse} {g : GenImage}
    (h : executeImageGeneration resp = Except.ok g) : g.data ≠ "" := by
  cases resp with
  | none => simp [executeImageGeneration] at h
  | some parts =>
    simp only [executeImageGeneration] at h
    cases hfind : parts.find? (fun p => p.inlineData.isSome) with
    | none => rw [hfind] at h; exact absurd h (by simp)
    | some imagePart =>
      rw [hfind] at h
      dsimp only at h
      cases hin : imagePart.inlineData with
      | none => rw [hin] at h; exact absurd h (by simp)
      | some d =>
        rw [hin] at h
        dsimp only at h
        by_cases hd : d.data = ""
        · rw [if_pos hd] at h; exact absurd h (by simp)
        · rw [if_neg hd] at h
          cases h
          exact hd

lemma mapM_ok_of_forall {α β : Type} {l : List α} {f : α → Except String β} {g : α → β}
    (h : ∀ a ∈ l, f a = Except.ok (g a)) : l.mapM f = Except.ok (l.map g) := by
  induction l with
  | nil => rfl
  | cons a t ih =>
    rw [List.mapM_cons, h a (List.mem_cons_self a t),
      ih (fun x hx => h x (List.mem_cons_of_mem a hx))]
    rfl

lemma exists_error_of_mapM_error {α β : Type} {l : List α} {f : α → Except String β}
    {e : String} (h : l.mapM f = Except.error e) : ∃ a ∈ l, f a = Except.error e := by
  induction l with
  | nil => rw [List.mapM_nil] at h; exact absurd h (by simp [pure, ExceptT.pure, Except.pure])
  | cons a t ih =>
    rw [List.mapM_cons] at h
    cases hfa : f a with
    | error e₂ =>
      rw [hfa] at h
      have he : e₂ = e := by
        simpa [Bind.bind, Except.bind] using h
      exact ⟨a, List.mem_cons_self a t, by rw [hfa, he]⟩
    | ok b =>
      rw [hfa] at h
      simp only [Bind.bind, Except.bind] at h
      cases hmt : t.mapM f with
      | error e₂ =>
        rw [hmt] at h
        have he : e₂ = e := by simpa using h
        obtain ⟨x, hx, hfx⟩ := ih (by rw [hmt, he])
        exact ⟨x, List.mem_cons_of_mem a hx, hfx⟩
      | ok bs =>
        rw [hmt] at h
        exact absurd h (by simp [pure, Except.pure])

lemma forall_ok_of_mapM_ok {α β : Type} {l : List α} {f : α → Except String β}
    {bs : List β} (h : l.mapM f = Except.ok bs) : ∀ a ∈ l, ∃ b, f a = Except.ok b := by
  induction l generalizing bs with
  | nil => intro a ha; cases ha
  | cons a t ih =>
    rw [List.mapM_cons] at h
    cases hfa : f a with
    | error e =>
      rw [hfa] at h
      exact absurd h (by simp [Bind.bind, Except.bind])
    | ok b =>
      rw [hfa] at h
      simp only [Bind.bind, Except.bind] at h
      cases hmt : t.mapM f with
      | error e => rw [hmt] at h; exact absurd h (by simp)
      | ok cs =>
        intro x hx
        rcases List.mem_cons.mp hx with hxa | hxt
        · exact ⟨b, hxa ▸ hfa⟩
        · exact ih hmt x hxt

lemma isPrefixOf_append_self (l t : List Char) : l.isPrefixOf (l ++ t) = true := by
  rw [List.isPrefixOf_iff_prefix]
  exact List.prefix_append l t

lemma isPrefixOf_of_take_mismatch {p l : List Char} (t : List Char) (k : Nat)
    (hk : k ≤ l.length)
    (hfalse : (p.take k).isPrefixOf (l.take k) = false) :
    p.isPrefixOf (l ++ t) = false := by
  by_contra hcon
  rw [Bool.not_eq_false, List.isPrefixOf_iff_prefix] at hcon
  obtain ⟨r, hr⟩ := hcon
  have htk : (l ++ t).take k = l.take k := by
    rw [List.take_append_eq_append_take, Nat.sub_eq_zero_of_le hk, List.take_zero,
      List.append_nil]
  have hpk : (p ++ r).take k = p.take k ++ r.take (k - p.length) :=
    List.take_append_eq_append_take
  rw [hr, htk] at hpk
  have : (p.take k).isPrefixOf (l.take k) = true := by
    rw [List.isPrefixOf_iff_prefix, hpk]
    exact List.prefix_append _ _
  rw [this] at hfalse
  cases hfalse

lemma mapM_comp_map {α β γ : Type} (h : α → β) (f : β → Except String γ) (l : List α) :
    (l.map h).mapM f = l.mapM (fun a => f (h a)) := by
  induction l with
  | nil => rfl
  | cons a t ih => rw [List.map_cons, List.mapM_cons, List.mapM_cons, ih]

lemma mode_of_validInputs {s : AppData} (h : validInputs s = true) :
    s.mode = "character" ∨ s.mode = "product" := by
  unfold validInputs at h
  by_cases hm : s.mode = "character"
  · exact Or.inl hm
  · rw [if_neg hm] at h
    by_cases hp : s.mode = "product"
    · exact Or.inr hp
    · rw [if_neg hp] at h
      cases h

lemma isOk_parse {u : String} (h : (parseDataUrl u).isOk = true) :
    ∃ p, parseDataUrl u = Except.ok p := by
  cases hp : parseDataUrl u with
  | ok p => exact ⟨p, rfl⟩
  | error e => rw [hp] at h; cases h

lemma parseOptionalImage_ok {img : Option String} (h : optionParses img = true) :
    ∃ op, parseOptionalImage img = Except.ok op := by
  cases img with
  | none => exact ⟨none, rfl⟩
  | some u =>
    obtain ⟨p, hp⟩ := isOk_parse h
    exact ⟨some p, by simp [parseOptionalImage, hp, Except.map]⟩

lemma validInputs_character {s : AppData} (h : validInputs s = true)
    (hm : s.mode = "character") :
    ∃ cu cp pu pp op, s.characterImage = some cu ∧ parseDataUrl cu = Except.ok cp ∧
      s.productImage = some pu ∧ parseDataUrl pu = Except.ok pp ∧
      parseOptionalImage s.outfitImage = Except.ok op := by
  unfold validInputs at h
  rw [if_pos hm] at h
  simp only [Bool.and_eq_true] at h
  obtain ⟨⟨⟨⟨hcs, hcp⟩, hps⟩, hpp⟩, ho⟩ := h
  obtain ⟨cu, hcu⟩ := Option.isSome_iff_exists.mp hcs
  obtain ⟨pu, hpu⟩ := Option.isSome_iff_exists.mp hps
  rw [hcu] at hcp
  rw [hpu] at hpp
  obtain ⟨cp, hcp'⟩ := isOk_parse hcp
  obtain ⟨pp, hpp'⟩ := isOk_parse hpp
  obtain ⟨op, hop⟩ := parseOptionalImage_ok ho
  exact ⟨cu, cp, pu, pp, op, hcu, hcp', hpu, hpp', hop⟩

lemma validInputs_product {s : AppData} (h : validInputs s = true)
    (hm : s.mode = "product") :
    ∃ pu pp bp, s.productImage = some pu ∧ parseDataUrl pu = Except.ok pp ∧
      parseOptionalImage s.backgroundImage = Except.ok bp ∧
      (¬(currentPromptOf s).trim = "" ∨ s.backgroundImage.isSome = true) := by
  have hm' : ¬s.mode = "character" := by rw [hm]; decide
  unfold validInputs at h
  rw [if_neg hm', if_pos hm] at h
  simp only [Bool.and_eq_true] at h
  obtain ⟨⟨⟨hps, hpp⟩, hor⟩, hb⟩ := h
  obtain ⟨pu, hpu⟩ := Option.isSome_iff_exists.mp hps
  rw [hpu] at hpp
  obtain ⟨pp, hpp'⟩ := isOk_parse hpp
  obtain ⟨bp, hbp⟩ := parseOptionalImage_ok hb
  refine ⟨pu, pp, bp, hpu, hpp', hbp, ?_⟩
  rcases Bool.or_eq_true_iff.mp hor with hne | hbs
  · left
    intro hempty
    rw [Bool.not_eq_true'] at hne
    rw [hempty] at hne
    simp [String.isEmpty] at hne
  · exact Or.inr hbs

lemma validationError_eq_none {s : AppData} (h : validInputs s = true) :
    validationError s = none := by
  unfold validationError
  rcases mode_of_validInputs h with hm | hm
  · obtain ⟨cu, cp, pu, pp, op, hcu, _, hpu, _, _⟩ := validInputs_character h hm
    rw [if_neg, if_neg, if_neg]
    · rintro ⟨hp, -⟩
      rw [hm] at hp
      exact absurd hp (by decide)
    · rintro ⟨hp, -⟩
      rw [hm] at hp
      exact absurd hp (by decide)
    · rintro ⟨-, h1 | h2⟩
      · rw [hcu] at h1; cases h1
      · rw [hpu] at h2; cases h2
  · obtain ⟨pu, pp, bp, hpu, _, _, hor⟩ := validInputs_product h hm
    rw [if_neg, if_neg, if_neg]
    · rintro ⟨-, htrim, hbg⟩
      rcases hor with hne | hbs
      · exact hne htrim
      · rw [hbg] at hbs; cases hbs
    · rintro ⟨-, hp⟩
      rw [hpu] at hp
      cases hp
    · rintro ⟨hc, -⟩
      rw [hm] at hc
      exact absurd hc (by decide)

lemma buildTask_eval_character {s : AppData} {cu pu : String} {cp pp : ImagePayload}
    {op : Option ImagePayload}
    (hm : s.mode = "character")
    (hc : s.characterImage = some cu) (hcp : parseDataUrl cu = Except.ok cp)
    (hp : s.productImage = some pu) (hpp : parseDataUrl pu = Except.ok pp)
    (ho : parseOptionalImage s.outfitImage = Except.ok op)
    (prompt : String) (resp : ApiResponse) :
    buildTask s prompt resp =
      Except.ok (generateCharacterPlacementImage cp pp op prompt
        s.aspectRatio s.customWidth s.customHeight resp) := by
  unfold buildTask
  rw [if_pos hm, hc, hp]
  simp [hcp, hpp, ho, Bind.bind, Except.bind]

lemma buildTask_eval_product {s : AppData} {pu : String} {pp : ImagePayload}
    {bp : Option ImagePayload}
    (hm : ¬s.mode = "character")
    (hp : s.productImage = some pu) (hpp : parseDataUrl pu = Except.ok pp)
    (hb : parseOptionalImage s.backgroundImage = Except.ok bp)
    (prompt : String) (resp : ApiResponse) :
    buildTask s prompt resp =
      Except.ok (generateProductConceptImage pp bp prompt
        s.aspectRatio s.customWidth s.customHeight resp) := by
  unfold buildTask
  rw [if_neg hm, hp]
  simp [hpp, hb, Bind.bind, Except.bind]


lemma toDisplayUrl_ok {g : GenImage} (h : g.data ≠ "") :
    toDisplayUrl g = Except.ok (displayUrl g) := by
  unfold toDisplayUrl displayUrl
  rw [if_neg h]

lemma handleGenerate_success_eval {s : AppData} {now : Nat} {responses : Nat → ApiResponse}
    {task : Nat → List Part × Except String GenImage} {g : Nat → GenImage}
    (hval : validationError { s with error := none } = none)
    (hbuild : ∀ i, buildTask { s with error := none }
      (currentPromptOf { s with error := none }) (responses i) = Except.ok (task i))
    (htask : ∀ i ∈ List.range s.numberOfImages, (task i).2 = Except.ok (g i))
    (hdata : ∀ i ∈ List.range s.numberOfImages, (g i).data ≠ "") :
    handleGenerate s now responses =
      ⟨{ s with
          error := none
          history :=
            ({ id := now
               images := (List.range s.numberOfImages).map (fun i => displayUrl (g i))
               prompt := currentPromptOf s
               mode := s.mode
               characterImage := s.characterImage
               productImage := s.productImage
               outfitImage := s.outfitImage
               backgroundImage := s.backgroundImage } :: s.history).take 10
          resultImages := (List.range s.numberOfImages).map (fun i => displayUrl (g i))
          appState := AppPhase.Result },
        (List.range s.numberOfImages).map (fun i => (task i).1)⟩ := by
  have hmapM :
      (List.range s.numberOfImages).mapM
        (fun i => buildTask { s with error := none }
          (currentPromptOf { s with error := none }) (responses i)) =
      Except.ok ((List.range s.numberOfImages).map task) :=
    mapM_ok_of_forall (fun a _ => hbuild a)
  have hsnd :
      ((List.range s.numberOfImages).map task).mapM (fun t => t.2) =
      Except.ok ((List.range s.numberOfImages).map g) := by
    rw [mapM_comp_map]
    exact mapM_ok_of_forall htask
  have hurls :
      ((List.range s.numberOfImages).map g).mapM toDisplayUrl =
      Except.ok ((List.range s.numberOfImages).map (fun i => displayUrl (g i))) := by
    rw [mapM_comp_map]
    exact mapM_ok_of_forall (fun i hi => toDisplayUrl_ok (hdata i hi))
  simp only [handleGenerate, hval, hmapM, hsnd, hurls]
  rw [List.map_map]
  rfl


lemma handleGenerate_failure_eval {s : AppData} {now : Nat} {responses : Nat → ApiResponse}
    {task : Nat → List Part × Except String GenImage} {e : String}
    (hval : validationError { s with error := none } = none)
    (hbuild : ∀ i, buildTask { s with error := none }
      (currentPromptOf { s with error := none }) (responses i) = Except.ok (task i))
    (herr : ((List.range s.numberOfImages).map task).mapM (fun t => t.2) = Except.error e) :
    handleGenerate s now responses =
      ⟨{ s with error := some e, appState := AppPhase.Idle },
        (List.range s.numberOfImages).map (fun i => (task i).1)⟩ := by
  have hmapM :
      (List.range s.numberOfImages).mapM
        (fun i => buildTask { s with error := none }
          (currentPromptOf { s with error := none }) (responses i)) =
      Except.ok ((List.range s.numberOfImages).map task) :=
    mapM_ok_of_forall (fun a _ => hbuild a)
  simp only [handleGenerate, hval, hmapM, herr]
  rw [List.map_map]
  rfl


lemma generateCharacter_snd_ok_iff {ci pi : ImagePayload} {oi : Option ImagePayload}
    {up ar : String} {w h : Nat} {resp : ApiResponse} {g : GenImage} :
    (generateCharacterPlacementImage ci pi oi up ar w h resp).2 = Except.ok g ↔
      executeImageGeneration resp = Except.ok g := by
  unfold generateCharacterPlacementImage
  cases hex : executeImageGeneration resp with
  | ok g₂ => simp
  | error e => simp

lemma generateProduct_snd_ok_iff {pi : ImagePayload} {bi : Option ImagePayload}
    {up ar : String} {w h : Nat} {resp : ApiResponse} {g : GenImage} :
    (generateProductConceptImage pi bi up ar w h resp).2 = Except.ok g ↔
      executeImageGeneration resp = Except.ok g := by
  unfold generateProductConceptImage
  cases hex : executeImageGeneration resp with
  | ok g₂ => simp
  | error e => simp

lemma generateCharacter_snd_error_ne {ci pi : ImagePayload} {oi : Option ImagePayload}
    {up ar : String} {w h : Nat} {resp : ApiResponse} {e : String}
    (hne : (generateCharacterPlacementImage ci pi oi up ar w h resp).2 = Except.error e) :
    e ≠ "" := by
  unfold generateCharacterPlacementImage at hne
  cases hex : executeImageGeneration resp with
  | ok g => rw [hex] at hne; simp at hne
  | error e₂ =>
    rw [hex] at hne
    dsimp only at hne
    cases hne
    exact append_ne_empty_left _ _ (by decide)

lemma generateProduct_snd_error_ne {pi : ImagePayload} {bi : Option ImagePayload}
    {up ar : String} {w h : Nat} {resp : ApiResponse} {e : String}
    (hne : (generateProductConceptImage pi bi up ar w h resp).2 = Except.error e) :
    e ≠ "" := by
  unfold generateProductConceptImage at hne
  cases hex : executeImageGeneration resp with
  | ok g => rw [hex] at hne; simp at hne
  | error e₂ =>
    rw [hex] at hne
    dsimp only at hne
    cases hne
    exact append_ne_empty_left _ _ (by decide)


/-- C1: for every valid generate action with selected image count N in
[1..6], if all N generation requests resolve successfully,
`handleGenerate` builds exactly N independent requests and sets
`resultImages` to exactly N displayable data-URL strings, in the same
order as the requests were built (the i-th display URL comes from the
i-th request's response), then transitions the app state to `Result`. -/
theorem generate_success_produces_ordered_batch (s : AppData) (now : Nat)
    (responses : Nat → ApiResponse) (g : Nat → GenImage)
    (hv : validInputs s = true)
    (hN1 : 1 ≤ s.numberOfImages) (hN6 : s.numberOfImages ≤ 6)
    (hok : ∀ i, i < s.numberOfImages →
      executeImageGeneration (responses i) = Except.ok (g i)) :
    (handleGenerate s now responses).requests.length = s.numberOfImages ∧
    (handleGenerate s now responses).state.resultImages =
      (List.range s.numberOfImages).map (fun i => displayUrl (g i)) ∧
    (handleGenerate s now responses).state.resultImages.length = s.numberOfImages ∧
    (handleGenerate s now responses).state.appState = AppPhase.Result := by
  have hval : validationError { s with error := none } = none := validationError_eq_none hv
  rcases mode_of_validInputs hv with hm | hm
  · obtain ⟨cu, cp, pu, pp, op, hc, hcp, hp, hpp, ho⟩ := validInputs_character hv hm
    have hbuild : ∀ i, buildTask { s with error := none }
        (currentPromptOf { s with error := none }) (responses i) =
        Except.ok (generateCharacterPlacementImage cp pp op
          (currentPromptOf { s with error := none })
          s.aspectRatio s.customWidth s.customHeight (responses i)) :=
      fun i => buildTask_eval_character hm hc hcp hp hpp ho _ _
    have heval := @handleGenerate_success_eval s now responses _ g hval hbuild
      (fun i hi => generateCharacter_snd_ok_iff.mpr (hok i (List.mem_range.mp hi)))
      (fun i hi => execOk_data_ne (hok i (List.mem_range.mp hi)))
    rw [heval]
    exact ⟨by simp, rfl, by simp, rfl⟩
  · obtain ⟨pu, pp, bp, hp, hpp, hb, -⟩ := validInputs_product hv hm
    have hm' : ¬s.mode = "character" := by rw [hm]; decide
    have hbuild : ∀ i, buildTask { s with error := none }
        (currentPromptOf { s with error := none }) (responses i) =
        Except.ok (generateProductConceptImage pp bp
          (currentPromptOf { s with error := none })
          s.aspectRatio s.customWidth s.customHeight (responses i)) :=
      fun i => buildTask_eval_product hm' hp hpp hb _ _
    have heval := @handleGenerate_success_eval s now responses _ g hval hbuild
      (fun i hi => generateProduct_snd_ok_iff.mpr (hok i (List.mem_range.mp hi)))
      (fun i hi => execOk_data_ne (hok i (List.mem_range.mp hi)))
    rw [heval]
    exact ⟨by simp, rfl, by simp, rfl⟩

/-- C1 witness: a concrete valid character-mode state with N = 2 whose
two requests both resolve, producing two display URLs and the `Result`
state. -/
theorem generate_success_produces_ordered_batch_witness :
    (handleGenerate { demoAppData with numberOfImages := 2 } 7
      (fun _ => successResponse)).requests.length = 2 ∧
    (handleGenerate { demoAppData with numberOfImages := 2 } 7
      (fun _ => successResponse)).state.resultImages =
      (List.range 2).map (fun i => displayUrl ((fun _ => ⟨"IMG", "image/png"⟩ : Nat → GenImage) i)) ∧
    (handleGenerate { demoAppData with numberOfImages := 2 } 7
      (fun _ => successResponse)).state.resultImages.length = 2 ∧
    (handleGenerate { demoAppData with numberOfImages := 2 } 7
      (fun _ => successResponse)).state.appState = AppPhase.Result :=
  generate_success_produces_ordered_batch
    { demoAppData with numberOfImages := 2 } 7 (fun _ => successResponse)
    (fun _ => ⟨"IMG", "image/png"⟩) (by decide) (by decide) (by decide)
    (fun i _ => by rfl)


/-- C2: for every batch in which at least one generation request
rejects, zero result images are displayed (`resultImages` keeps its
previous value, succeeded requests included), the error state is set
to a nonempty string, the app state returns to `Idle`, and the history
list is unchanged by that batch. -/
theorem generate_failure_all_or_nothing (s : AppData) (now : Nat)
    (responses : Nat → ApiResponse)
    (hv : validInputs s = true)
    (hfail : ∃ i, i < s.numberOfImages ∧
      ∃ e₀, executeImageGeneration (responses i) = Except.error e₀) :
    (handleGenerate s now responses).state.resultImages = s.resultImages ∧
    (∃ m, (handleGenerate s now responses).state.error = some m ∧ m ≠ "") ∧
    (handleGenerate s now responses).state.appState = AppPhase.Idle ∧
    (handleGenerate s now responses).state.history = s.history := by
  have hval : validationError { s with error := none } = none := validationError_eq_none hv
  obtain ⟨i₀, hi₀, e₀, hexc⟩ := hfail
  rcases mode_of_validInputs hv with hm | hm
  · obtain ⟨cu, cp, pu, pp, op, hc, hcp, hp, hpp, ho⟩ := validInputs_character hv hm
    have hbuild : ∀ i, buildTask { s with error := none }
        (currentPromptOf { s with error := none }) (responses i) =
        Except.ok (generateCharacterPlacementImage cp pp op
          (currentPromptOf { s with error := none })
          s.aspectRatio s.customWidth s.customHeight (responses i)) :=
      fun i => buildTask_eval_character hm hc hcp hp hpp ho _ _
    cases hmap : ((List.range s.numberOfImages).map
        (fun i => generateCharacterPlacementImage cp pp op
          (currentPromptOf { s with error := none })
          s.aspectRatio s.customWidth s.customHeight (responses i))).mapM
        (fun t => t.2) with
    | ok results =>
      exfalso
      have hmem := List.mem_map_of_mem
        (fun i => generateCharacterPlacementImage cp pp op
          (currentPromptOf { s with error := none })
          s.aspectRatio s.customWidth s.customHeight (responses i))
        (List.mem_range.mpr hi₀)
      obtain ⟨b, hb⟩ := forall_ok_of_mapM_ok hmap _ hmem
      have hokex := generateCharacter_snd_ok_iff.mp hb
      rw [hexc] at hokex
      cases hokex
    | error e =>
      have heval := @handleGenerate_failure_eval s now responses _ e hval hbuild hmap
      rw [heval]
      refine ⟨rfl, ⟨e, rfl, ?_⟩, rfl, rfl⟩
      obtain ⟨t, ht, hterr⟩ := exists_error_of_mapM_error hmap
      obtain ⟨j, hj, rfl⟩ := List.mem_map.mp ht
      exact generateCharacter_snd_error_ne hterr
  · obtain ⟨pu, pp, bp, hp, hpp, hb, -⟩ := validInputs_product hv hm
    have hm' : ¬s.mode = "character" := by rw [hm]; decide
    have hbuild : ∀ i, buildTask { s with error := none }
        (currentPromptOf { s with error := none }) (responses i) =
        Except.ok (generateProductConceptImage pp bp
          (currentPromptOf { s with error := none })
          s.aspectRatio s.customWidth s.customHeight (responses i)) :=
      fun i => buildTask_eval_product hm' hp hpp hb _ _
    cases hmap : ((List.range s.numberOfImages).map
        (fun i => generateProductConceptImage pp bp
          (currentPromptOf { s with error := none })
          s.aspectRatio s.customWidth s.customHeight (responses i))).mapM
        (fun t => t.2) with
    | ok results =>
      exfalso
      have hmem := List.mem_map_of_mem
        (fun i => generateProductConceptImage pp bp
          (currentPromptOf { s with error := none })
          s.aspectRatio s.customWidth s.customHeight (responses i))
        (List.mem_range.mpr hi₀)
      obtain ⟨b, hb⟩ := forall_ok_of_mapM_ok hmap _ hmem
      have hokex := generateProduct_snd_ok_iff.mp hb
      rw [hexc] at hokex
      cases hokex
    | error e =>
      have heval := @handleGenerate_failure_eval s now responses _ e hval hbuild hmap
      rw [heval]
      refine ⟨rfl, ⟨e, rfl, ?_⟩, rfl, rfl⟩
      obtain ⟨t, ht, hterr⟩ := exists_error_of_mapM_error hmap
      obtain ⟨j, hj, rfl⟩ := List.mem_map.mp ht
      exact generateProduct_snd_error_ne hterr

/-- C2 witness: a concrete batch of two requests whose second rejects
keeps the previous result images and history, sets a nonempty error
and returns to `Idle`. -/
theorem generate_failure_all_or_nothing_witness :
    (handleGenerate { demoAppData with numberOfImages := 2 } 7
      (fun i => if i = 1 then none else successResponse)).state.resultImages =
        ({ demoAppData with numberOfImages := 2 } : AppData).resultImages ∧
    (∃ m, (handleGenerate { demoAppData with numberOfImages := 2 } 7
      (fun i => if i = 1 then none else successResponse)).state.error = some m ∧ m ≠ "") ∧
    (handleGenerate { demoAppData with numberOfImages := 2 } 7
      (fun i => if i = 1 then none else successResponse)).state.appState = AppPhase.Idle ∧
    (handleGenerate { demoAppData with numberOfImages := 2 } 7
      (fun i => if i = 1 then none else successResponse)).state.history =
        ({ demoAppData with numberOfImages := 2 } : AppData).history :=
  generate_failure_all_or_nothing { demoAppData with numberOfImages := 2 } 7
    (fun i => if i = 1 then none else successResponse)
    (by decide)
    ⟨1, by decide, "Invalid response from model. No parts found.", by rfl⟩


/-- C3: a generate action whose validation fails (character mode with a
missing character or product image; product mode with a missing
product image, or an all-whitespace prompt and no background image)
sets a nonempty error string, dispatches no requests, and leaves the
app state in `Idle` — `Loading` is never entered (the source returns
before `setAppState(Loading)`). -/
theorem generate_validation_blocks_dispatch (s : AppData) (now : Nat)
    (responses : Nat → ApiResponse)
    (hidle : s.appState = AppPhase.Idle)
    (hbad : (s.mode = "character" ∧ (s.characterImage = none ∨ s.productImage = none)) ∨
      (s.mode = "product" ∧ (s.productImage = none ∨
        (s.productPrompt.trim = "" ∧ s.backgroundImage = none)))) :
    (∃ m, (handleGenerate s now responses).state.error = some m ∧ m ≠ "") ∧
    (handleGenerate s now responses).requests = [] ∧
    (handleGenerate s now responses).state.appState = AppPhase.Idle := by
  have hsome : ∃ m, validationError { s with error := none } = some m ∧ m ≠ "" := by
    unfold validationError
    rcases hbad with ⟨hm, hmiss⟩ | ⟨hm, hmiss⟩
    · rw [if_pos ⟨hm, hmiss⟩]
      exact ⟨_, rfl, by decide⟩
    · have hnc : ¬(s.mode = "character" ∧
          (s.characterImage = none ∨ s.productImage = none)) := by
        rintro ⟨hc, -⟩
        rw [hm] at hc
        exact absurd hc (by decide)
      rw [if_neg hnc]
      have hcur : currentPromptOf s = s.productPrompt := by
        unfold currentPromptOf
        rw [if_neg (by rw [hm]; decide)]
      rcases hmiss with hpn | ⟨hpe, hbn⟩
      · rw [if_pos ⟨hm, hpn⟩]
        exact ⟨_, rfl, by decide⟩
      · by_cases hpn : s.productImage = none
        · rw [if_pos ⟨hm, hpn⟩]
          exact ⟨_, rfl, by decide⟩
        · rw [if_neg (by rintro ⟨-, hx⟩; exact hpn hx),
            if_pos ⟨hm, by show (currentPromptOf s).trim = ""; rw [hcur]; exact hpe, hbn⟩]
          exact ⟨_, rfl, by decide⟩
  obtain ⟨m, hval, hne⟩ := hsome
  have heval : handleGenerate s now responses = ⟨{ s with error := some m }, []⟩ := by
    simp only [handleGenerate, hval]
  rw [heval]
  exact ⟨⟨m, rfl, hne⟩, rfl, hidle⟩

/-- C3 witness: character mode with no character image uploaded sets
the upload-both-images error, dispatches nothing and stays `Idle`. -/
theorem generate_validation_blocks_dispatch_witness :
    (∃ m, (handleGenerate { demoAppData with characterImage := none } 7
      (fun _ => successResponse)).state.error = some m ∧ m ≠ "") ∧
    (handleGenerate { demoAppData with characterImage := none } 7
      (fun _ => successResponse)).requests = [] ∧
    (handleGenerate { demoAppData with characterImage := none } 7
      (fun _ => successResponse)).state.appState = AppPhase.Idle :=
  generate_validation_blocks_dispatch { demoAppData with characterImage := none } 7
    (fun _ => successResponse) (by rfl) (Or.inl ⟨rfl, Or.inl rfl⟩)


/-- C10: `handleStartOver` resets the app state to `Idle` and clears
the character, product, outfit and background images, both prompts,
the result images, the error, the number-of-images (to 1) and the
aspect ratio (to `1:1`), but leaves the history list unchanged: the
exact same entries in the exact same order. -/
theorem start_over_resets_but_keeps_history (s : AppData) :
    (handleStartOver s).appState = AppPhase.Idle ∧
    (handleStartOver s).characterImage = none ∧
    (handleStartOver s).productImage = none ∧
    (handleStartOver s).outfitImage = none ∧
    (handleStartOver s).backgroundImage = none ∧
    (handleStartOver s).characterPrompt = "" ∧
    (handleStartOver s).productPrompt = "" ∧
    (handleStartOver s).numberOfImages = 1 ∧
    (handleStartOver s).aspectRatio = "1:1" ∧
    (handleStartOver s).resultImages = [] ∧
    (handleStartOver s).error = none ∧
    (handleStartOver s).history = s.history :=
  ⟨rfl, rfl, rfl, rfl, rfl, rfl, rfl, rfl, rfl, rfl, rfl, rfl⟩

/-- C5: `generateCharacterPlacementImage` assembles exactly 3 parts
without an outfit image and exactly 4 with one; every part before the
last is an image part, the last is the single instruction text; the
outfit image part is present exactly when an outfit image is supplied
(the no-outfit list is exactly character, product, instruction). -/
theorem character_parts_shape (ci pi : ImagePayload) (oi : Option ImagePayload)
    (up ar : String) (w h : Nat) (resp : ApiResponse) :
    (generateCharacterPlacementImage ci pi oi up ar w h resp).1 =
      characterPlacementParts ci pi oi up ar w h ∧
    (oi = none → characterPlacementParts ci pi oi up ar w h =
      [Part.inlineData ci.base64 ci.mimeType, Part.inlineData pi.base64 pi.mimeType,
        Part.text (characterBasicPrompt up ar w h)]) ∧
    (∀ o, oi = some o → characterPlacementParts ci pi oi up ar w h =
      [Part.inlineData ci.base64 ci.mimeType, Part.inlineData pi.base64 pi.mimeType,
        Part.inlineData o.base64 o.mimeType, Part.text (characterOutfitPrompt up ar w h)]) ∧
    (characterPlacementParts ci pi oi up ar w h).length =
      (if oi.isSome then 4 else 3) ∧
    (∃ t, (characterPlacementParts ci pi oi up ar w h).getLast? = some (Part.text t)) ∧
    (∀ q ∈ (characterPlacementParts ci pi oi up ar w h).dropLast,
      ∃ d m, q = Part.inlineData d m) := by
  cases oi with
  | none =>
    refine ⟨rfl, fun _ => rfl, ?_, rfl, ⟨_, rfl⟩, ?_⟩
    · intro o ho
      cases ho
    intro q hq
    rw [show (characterPlacementParts ci pi none up ar w h).dropLast =
      [Part.inlineData ci.base64 ci.mimeType, Part.inlineData pi.base64 pi.mimeType]
      from rfl] at hq
    rcases List.mem_cons.mp hq with rfl | hq2
    · exact ⟨_, _, rfl⟩
    rcases List.mem_cons.mp hq2 with rfl | hq3
    · exact ⟨_, _, rfl⟩
    exact absurd hq3 (List.not_mem_nil q)
  | some o =>
    refine ⟨rfl, ?_, ?_, rfl, ⟨_, rfl⟩, ?_⟩
    · intro hno
      cases hno
    · intro o₂ ho
      cases ho
      rfl
    intro q hq
    rw [show (characterPlacementParts ci pi (some o) up ar w h).dropLast =
      [Part.inlineData ci.base64 ci.mimeType, Part.inlineData pi.base64 pi.mimeType,
        Part.inlineData o.base64 o.mimeType] from rfl] at hq
    rcases List.mem_cons.mp hq with rfl | hq2
    · exact ⟨_, _, rfl⟩
    rcases List.mem_cons.mp hq2 with rfl | hq3
    · exact ⟨_, _, rfl⟩
    rcases List.mem_cons.mp hq3 with rfl | hq4
    · exact ⟨_, _, rfl⟩
    exact absurd hq4 (List.not_mem_nil q)

/-- C5 witness: the shape facts at a concrete input, in both the
no-outfit and with-outfit cases. -/
theorem character_parts_shape_witness :
    (characterPlacementParts ⟨"C", "image/png"⟩ ⟨"P", "image/jpeg"⟩ none "" "1:1" 0 0 =
      [Part.inlineData "C" "image/png", Part.inlineData "P" "image/jpeg",
        Part.text (characterBasicPrompt "" "1:1" 0 0)]) ∧
    (characterPlacementParts ⟨"C", "image/png"⟩ ⟨"P", "image/jpeg"⟩
        (some ⟨"O", "image/webp"⟩) "" "1:1" 0 0).length = 4 :=
  ⟨(character_parts_shape ⟨"C", "image/png"⟩ ⟨"P", "image/jpeg"⟩ none "" "1:1" 0 0
      none).2.1 rfl,
    (character_parts_shape ⟨"C", "image/png"⟩ ⟨"P", "image/jpeg"⟩
      (some ⟨"O", "image/webp"⟩) "" "1:1" 0 0 none).2.2.2.1⟩


/-- C8 counterexample: the UI accepts a custom width of 0
(`Math.max(0, parseInt(v) || 0)` stores 0), and for `custom` with
width 0 and height 1024 the rendered clause is `a (custom)`, not the
claimed `a (0:1024)`. -/
theorem aspect_ratio_custom_zero_counterexample :
    uiDimValue 0 = 0 ∧
    getAspectRatioDescription "custom" 0 1024 = "a (custom)" ∧
    getAspectRatioDescription "custom" 0 1024 ≠
      "a (" ++ toString 0 ++ ":" ++ toString 1024 ++ ")" := by
  refine ⟨rfl, by decide, by decide⟩

/-- C8 amended: the preset clauses are as claimed for every stored
width/height, and the custom clause is `a (W:H)` exactly when both
dimensions are positive; with a zero dimension (which the UI accepts)
the clause falls back to `a (custom)`. -/
theorem aspect_ratio_description_cases (w h : Nat) :
    getAspectRatioDescription "1:1" w h = "a square (1:1)" ∧
    getAspectRatioDescription "3:4" w h = "a portrait (3:4)" ∧
    getAspectRatioDescription "4:3" w h = "a landscape (4:3)" ∧
    (0 < w → 0 < h → getAspectRatioDescription "custom" w h =
      "a (" ++ toString w ++ ":" ++ toString h ++ ")") ∧
    (w = 0 ∨ h = 0 → getAspectRatioDescription "custom" w h = "a (custom)") := by
  refine ⟨rfl, rfl, rfl, ?_, ?_⟩
  · intro hw hh
    unfold getAspectRatioDescription
    rw [if_pos ⟨rfl, hw, hh⟩]
  · intro hzero
    unfold getAspectRatioDescription
    have hnc : ¬("custom" = "custom" ∧ 0 < w ∧ 0 < h) := by
      rintro ⟨-, hw, hh⟩
      rcases hzero with h0 | h0
      · rw [h0] at hw
        exact absurd hw (by decide)
      · rw [h0] at hh
        exact absurd hh (by decide)
    rw [if_neg hnc, if_neg (by decide), if_neg (by decide), if_neg (by decide)]
    decide

/-- C8 witness: the amended clauses evaluated at width 640, height 480,
and the zero-width fallback. -/
theorem aspect_ratio_description_cases_witness :
    getAspectRatioDescription "1:1" 640 480 = "a square (1:1)" ∧
    getAspectRatioDescription "custom" 640 480 =
      "a (" ++ toString 640 ++ ":" ++ toString 480 ++ ")" ∧
    getAspectRatioDescription "custom" 640 0 = "a (custom)" :=
  ⟨(aspect_ratio_description_cases 640 480).1,
    (aspect_ratio_description_cases 640 480).2.2.2.1 (by decide) (by decide),
    (aspect_ratio_description_cases 640 0).2.2.2.2 (Or.inr rfl)⟩


/-- C7 counterexample: a response whose FIRST part has an `inlineData`
field with empty data and whose SECOND part carries real inline image
data; the response does contain a part carrying inline image data, yet
`executeImageGeneration` throws instead of returning a payload,
because `find(p => p.inlineData)` stops at the first part. -/
theorem execute_image_inline_data_counterexample :
    (([⟨some ⟨"", "image/png"⟩, none⟩, ⟨some ⟨"abc", "image/png"⟩, none⟩] :
        List RespPart).any carriesImageData = true) ∧
    executeImageGeneration
        (some [⟨some ⟨"", "image/png"⟩, none⟩, ⟨some ⟨"abc", "image/png"⟩, none⟩]) =
      Except.error "Model did not return an image. Response: <no text>" :=
  ⟨by decide, rfl⟩

/-- C7 amended: `executeImageGeneration` returns an image payload iff
the FIRST part with an `inlineData` field exists and its data is
nonempty — that part's data and mimeType are returned; otherwise it
throws an error with a nonempty descriptive message (no parts found,
or model did not return an image, including any text explanation). -/
theorem execute_image_generation_outcome (response : ApiResponse) :
    (∀ g, executeImageGeneration response = Except.ok g →
      ∃ parts p, response = some parts ∧
        parts.find? (fun q => q.inlineData.isSome) = some p ∧
        p.inlineData = some g ∧ g.data ≠ "") ∧
    (∀ parts p g, response = some parts →
      parts.find? (fun q => q.inlineData.isSome) = some p →
      p.inlineData = some g → g.data ≠ "" →
      executeImageGeneration response = Except.ok g) ∧
    (∀ e, executeImageGeneration response = Except.error e → e ≠ "") := by
  refine ⟨?_, ?_, ?_⟩
  · intro g hg
    cases response with
    | none => simp [executeImageGeneration] at hg
    | some parts =>
      simp only [executeImageGeneration] at hg
      cases hfind : parts.find? (fun q => q.inlineData.isSome) with
      | none => rw [hfind] at hg; simp at hg
      | some p =>
        rw [hfind] at hg
        dsimp only at hg
        cases hin : p.inlineData with
        | none => rw [hin] at hg; simp at hg
        | some d =>
          rw [hin] at hg
          dsimp only at hg
          by_cases hd : d.data = ""
          · rw [if_pos hd] at hg; simp at hg
          · rw [if_neg hd] at hg
            cases hg
            exact ⟨parts, p, rfl, hfind, hin, hd⟩
  · intro parts p g hresp hfind hin hd
    subst hresp
    simp only [executeImageGeneration]
    rw [hfind]
    dsimp only
    rw [hin]
    dsimp only
    rw [if_neg hd]
  · intro e he
    cases response with
    | none =>
      simp only [executeImageGeneration] at he
      cases he
      decide
    | some parts =>
      simp only [executeImageGeneration] at he
      cases hfind : parts.find? (fun q => q.inlineData.isSome) with
      | none =>
        rw [hfind] at he
        cases he
        exact append_ne_empty_left _ _ (by decide)
      | some p =>
        rw [hfind] at he
        dsimp only at he
        cases hin : p.inlineData with
        | none =>
          rw [hin] at he
          cases he
          exact append_ne_empty_left _ _ (by decide)
        | some d =>
          rw [hin] at he
          dsimp only at he
          by_cases hd : d.data = ""
          · rw [if_pos hd] at he
            cases he
            exact append_ne_empty_left _ _ (by decide)
          · rw [if_neg hd] at he
            cases he

/-- C7 witness: the characterization applied at a response whose first
inline part carries the data `IMG`, and at an imageless response. -/
theorem execute_image_generation_outcome_witness :
    executeImageGeneration successResponse = Except.ok ⟨"IMG", "image/png"⟩ ∧
    ("Invalid response from model. No parts found." : String) ≠ "" :=
  ⟨(execute_image_generation_outcome successResponse).2.1
      [⟨some ⟨"IMG", "image/png"⟩, none⟩] ⟨some ⟨"IMG", "image/png"⟩, none⟩
      ⟨"IMG", "image/png"⟩ rfl (by decide) rfl (by decide),
    (execute_image_generation_outcome none).2.2
      "Invalid response from model. No parts found." rfl⟩


lemma b64Char_ok (n : Nat) : isLineTerminator (b64Char n) = false := by
  have hall : ∀ k, k < 64 → isLineTerminator (base64Alphabet.getD k 'A') = false := by
    decide
  exact hall (n % 64) (Nat.mod_lt n (by decide))

lemma base64EncodeChars_ok (bs : List Nat) :
    ∀ c ∈ base64EncodeChars bs, isLineTerminator c = false := by
  induction bs using base64EncodeChars.induct with
  | case1 => intro c hc; cases hc
  | case2 b1 =>
    intro c hc
    rcases List.mem_cons.mp hc with rfl | hc2
    · exact b64Char_ok _
    rcases List.mem_cons.mp hc2 with rfl | hc3
    · exact b64Char_ok _
    rcases List.mem_cons.mp hc3 with rfl | hc4
    · decide
    rcases List.mem_cons.mp hc4 with rfl | hc5
    · decide
    exact absurd hc5 (List.not_mem_nil c)
  | case3 b1 b2 =>
    intro c hc
    rcases List.mem_cons.mp hc with rfl | hc2
    · exact b64Char_ok _
    rcases List.mem_cons.mp hc2 with rfl | hc3
    · exact b64Char_ok _
    rcases List.mem_cons.mp hc3 with rfl | hc4
    · exact b64Char_ok _
    rcases List.mem_cons.mp hc4 with rfl | hc5
    · decide
    exact absurd hc5 (List.not_mem_nil c)
  | case4 b1 b2 b3 rest ih =>
    intro c hc
    rcases List.mem_cons.mp hc with rfl | hc2
    · exact b64Char_ok _
    rcases List.mem_cons.mp hc2 with rfl | hc3
    · exact b64Char_ok _
    rcases List.mem_cons.mp hc3 with rfl | hc4
    · exact b64Char_ok _
    rcases List.mem_cons.mp hc4 with rfl | hc5
    · exact b64Char_ok _
    exact ih c hc5

lemma dataUrlForMime_self (mime rest : String)
    (hall : rest.data.all (fun c => !isLineTerminator c) = true) :
    dataUrlForMime ("data:" ++ mime ++ ";base64," ++ rest) mime =
      some ⟨rest, mime⟩ := by
  simp only [dataUrlForMime]
  have hpre : strStartsWith ("data:" ++ mime ++ ";base64," ++ rest)
      ("data:" ++ mime ++ ";base64,") = true := by
    unfold strStartsWith
    rw [String.data_append]
    exact isPrefixOf_append_self _ _
  rw [hpre]
  have hdrop : strDropChars ("data:" ++ mime ++ ";base64," ++ rest)
      ("data:" ++ mime ++ ";base64,").data.length = rest := by
    unfold strDropChars
    simp only [String.data_append]
    rw [List.drop_left]
  rw [if_pos rfl, hdrop, hall]
  rfl

lemma dataUrlForMime_mismatch (mime m₂ rest : String) (k : Nat)
    (hk : k ≤ ("data:" ++ mime ++ ";base64,").data.length)
    (hmm : (("data:" ++ m₂ ++ ";base64,").data.take k).isPrefixOf
      (("data:" ++ mime ++ ";base64,").data.take k) = false) :
    dataUrlForMime ("data:" ++ mime ++ ";base64," ++ rest) m₂ = none := by
  simp only [dataUrlForMime]
  have hpre : strStartsWith ("data:" ++ mime ++ ";base64," ++ rest)
      ("data:" ++ m₂ ++ ";base64,") = false := by
    unfold strStartsWith
    rw [String.data_append]
    exact isPrefixOf_of_take_mismatch _ k hk hmm
  rw [hpre]
  rfl

lemma base64Encode_all_ok (bs : List Nat) :
    (base64Encode bs).data.all (fun c => !isLineTerminator c) = true := by
  rw [List.all_eq_true]
  intro c hc
  rw [base64EncodeChars_ok bs c hc]
  rfl

lemma base64Encode_parses {mime : String} (bs : List Nat)
    (hm : mime = "image/jpeg" ∨ mime = "image/png" ∨ mime = "image/webp") :
    parseDataUrl ("data:" ++ mime ++ ";base64," ++ base64Encode bs) =
      Except.ok ⟨base64Encode bs, mime⟩ := by
  rcases hm with rfl | rfl | rfl
  · unfold parseDataUrl matchImageDataUrl
    rw [dataUrlForMime_self _ _ (base64Encode_all_ok bs)]
    rfl
  · unfold parseDataUrl matchImageDataUrl
    rw [dataUrlForMime_mismatch _ _ _ 15 (by decide) (by decide),
      dataUrlForMime_self _ _ (base64Encode_all_ok bs)]
    rfl
  · unfold parseDataUrl matchImageDataUrl
    rw [dataUrlForMime_mismatch _ _ _ 15 (by decide) (by decide),
      dataUrlForMime_mismatch _ _ _ 15 (by decide) (by decide),
      dataUrlForMime_self _ _ (base64Encode_all_ok bs)]
    rfl


/-- C9 counterexample: a GIF file is accepted by the picker's
`accept="image/*"` filter, but its stored preview source
`data:image/gif;base64,...` begins with none of the three claimed
prefixes, and `parseDataUrl` rejects it at generate time. -/
theorem upload_gif_counterexample :
    pickerAccepts ⟨"image/gif", [71, 73, 70]⟩ = true ∧
    handleFileChange (some ⟨"image/gif", [71, 73, 70]⟩) =
      some "data:image/gif;base64,R0lG" ∧
    (strStartsWith "data:image/gif;base64,R0lG" "data:image/jpeg;base64," ||
      strStartsWith "data:image/gif;base64,R0lG" "data:image/png;base64," ||
      strStartsWith "data:image/gif;base64,R0lG" "data:image/webp;base64,") = false ∧
    parseDataUrl "data:image/gif;base64,R0lG" =
      Except.error "Invalid image data URL." := by
  refine ⟨rfl, rfl, by decide, rfl⟩

/-- C9 amended: uploading a file stores
`data:<file MIME type>;base64,<base64 bytes>`; the stored string
begins with one of the three claimed prefixes exactly when the file's
MIME type is `image/jpeg`, `image/png` or `image/webp`, and for those
types `parseDataUrl` accepts the stored string at generate time
(base64 output never contains a line terminator). For any other MIME
type the picker may accept, the claimed prefix property fails (see the
GIF counterexample). -/
theorem upload_round_trip (f : BrowserFile)
    (hm : f.mimeType = "image/jpeg" ∨ f.mimeType = "image/png" ∨
      f.mimeType = "image/webp") :
    handleFileChange (some f) =
      some ("data:" ++ f.mimeType ++ ";base64," ++ base64Encode f.bytes) ∧
    strStartsWith (readAsDataURL f) ("data:" ++ f.mimeType ++ ";base64,") = true ∧
    parseDataUrl (readAsDataURL f) =
      Except.ok ⟨base64Encode f.bytes, f.mimeType⟩ := by
  refine ⟨rfl, ?_, ?_⟩
  · unfold readAsDataURL strStartsWith
    rw [String.data_append]
    exact isPrefixOf_append_self _ _
  · unfold readAsDataURL
    exact base64Encode_parses f.bytes hm

/-- C9 witness: the amended round trip evaluated on a concrete PNG
file. -/
theorem upload_round_trip_witness :
    handleFileChange (some ⟨"image/png", [137, 80]⟩) =
      some ("data:" ++ "image/png" ++ ";base64," ++ base64Encode [137, 80]) ∧
    strStartsWith (readAsDataURL ⟨"image/png", [137, 80]⟩)
      ("data:" ++ "image/png" ++ ";base64,") = true ∧
    parseDataUrl (readAsDataURL ⟨"image/png", [137, 80]⟩) =
      Except.ok ⟨base64Encode [137, 80], "image/png"⟩ :=
  upload_round_trip ⟨"image/png", [137, 80]⟩ (Or.inr (Or.inl rfl))

lemma productScenePrompt_decomposition (up ar : String) (w h : Nat) :
    productScenePrompt up ar w h =
      productScenePromptBefore ar w h ++
        ("USER SCENE DESCRIPTION: \"" ++ up ++ "\"") ++ productScenePromptAfter := by
  unfold productScenePrompt productScenePromptBefore productScenePromptAfter
  rw [show (" aspect ratio.\n\nUSER SCENE DESCRIPTION: \"" : String) =
      " aspect ratio.\n\n" ++ "USER SCENE DESCRIPTION: \"" from by decide]
  rw [show ("\"\n\nOUTPUT:\n- You MUST return only the final image.\n- DO NOT return any text, JSON, or other data." : String) =
      "\"" ++ "\n\nOUTPUT:\n- You MUST return only the final image.\n- DO NOT return any text, JSON, or other data."
      from by decide]
  simp only [String.append_assoc]

set_option maxRecDepth 10000 in
/-- C6 counterexample: a valid product-mode input with a background
image supplied (so the background template is used) whose user text
itself contains `USER SCENE DESCRIPTION`; the built instruction — the
text part of the assembled request — then does contain that literal,
through the ADDITIONAL USER REQUEST clause, contradicting the claim's
unconditional "does not contain". -/
theorem product_background_contains_clause_counterexample :
    (productConceptParts ⟨"P", "image/png"⟩ (some ⟨"B", "image/png"⟩)
        "USER SCENE DESCRIPTION please" "1:1" 1024 1024).getLast? =
      some (Part.text (productBackgroundPrompt
        "USER SCENE DESCRIPTION please" "1:1" 1024 1024)) ∧
    strContains (productBackgroundPrompt "USER SCENE DESCRIPTION please" "1:1" 1024 1024)
      "USER SCENE DESCRIPTION" = true :=
  ⟨rfl, by decide⟩

set_option maxRecDepth 10000 in
/-- C6 amended: the scene-description template embeds the user text
verbatim inside the USER SCENE DESCRIPTION clause (the instruction is
literally the fixed prefix, the clause around the user text, and the
fixed suffix); with a background image the template's own text never
contains `USER SCENE DESCRIPTION` — concretely, with an empty user
prompt the built background instruction is free of that literal for
every preset ratio (and for the custom default 1024x1024) — though a
user prompt that itself contains the literal is embedded verbatim via
the ADDITIONAL USER REQUEST clause. -/
theorem product_prompt_scene_clause (up ar : String) (w h : Nat) :
    productScenePrompt up ar w h =
      productScenePromptBefore ar w h ++
        ("USER SCENE DESCRIPTION: \"" ++ up ++ "\"") ++ productScenePromptAfter ∧
    (ar = "1:1" ∨ ar = "3:4" ∨ ar = "4:3" →
      strContains (productBackgroundPrompt "" ar w h) "USER SCENE DESCRIPTION" = false) ∧
    strContains (productBackgroundPrompt "" "custom" 1024 1024)
      "USER SCENE DESCRIPTION" = false := by
  refine ⟨productScenePrompt_decomposition up ar w h, ?_, by decide⟩
  rintro (rfl | rfl | rfl)
  · rw [show productBackgroundPrompt "" "1:1" w h =
        productBackgroundPrompt "" "1:1" 0 0 from rfl]
    decide
  · rw [show productBackgroundPrompt "" "3:4" w h =
        productBackgroundPrompt "" "3:4" 0 0 from rfl]
    decide
  · rw [show productBackgroundPrompt "" "4:3" w h =
        productBackgroundPrompt "" "4:3" 0 0 from rfl]
    decide

/-- C6 witness: the amended facts at a concrete scene description and
the square preset. -/
theorem product_prompt_scene_clause_witness :
    productScenePrompt "a beach at dawn" "1:1" 0 0 =
      productScenePromptBefore "1:1" 0 0 ++
        ("USER SCENE DESCRIPTION: \"" ++ "a beach at dawn" ++ "\"") ++
        productScenePromptAfter ∧
    strContains (productBackgroundPrompt "" "1:1" 0 0) "USER SCENE DESCRIPTION" = false :=
  ⟨(product_prompt_scene_clause "a beach at dawn" "1:1" 0 0).1,
    (product_prompt_scene_clause "a beach at dawn" "1:1" 0 0).2.1 (Or.inl rfl)⟩

lemma handleGenerate_history_cases (s : AppData) (now : Nat)
    (responses : Nat → ApiResponse) :
    (handleGenerate s now responses).state.history = s.history ∨
    ∃ item, (handleGenerate s now responses).state.history =
      (item :: s.history).take 10 := by
  cases hval : validationError { s with error := none } with
  | some m =>
    left
    simp only [handleGenerate, hval]
  | none =>
    cases hmap : (List.range s.numberOfImages).mapM
        (fun i => buildTask { s with error := none }
          (currentPromptOf { s with error := none }) (responses i)) with
    | error e =>
      left
      simp only [handleGenerate, hval, hmap]
    | ok tasks =>
      cases hsnd : tasks.mapM (fun t => t.2) with
      | error e =>
        left
        simp only [handleGenerate, hval, hmap, hsnd]
      | ok results =>
        cases hurl : results.mapM toDisplayUrl with
        | error e =>
          left
          simp only [handleGenerate, hval, hmap, hsnd, hurl]
        | ok urls =>
          right
          refine ⟨{ id := now, images := urls,
                      prompt := currentPromptOf { s with error := none },
                      mode := s.mode,
                      characterImage := s.characterImage,
                      productImage := s.productImage,
                      outfitImage := s.outfitImage,
                      backgroundImage := s.backgroundImage }, ?_⟩
          simp only [handleGenerate, hval, hmap, hsnd, hurl]

lemma handleGenerate_history_le (s : AppData) (now : Nat)
    (responses : Nat → ApiResponse) (hcap : s.history.length ≤ 10) :
    (handleGenerate s now responses).state.history.length ≤ 10 := by
  rcases handleGenerate_history_cases s now responses with heq | ⟨item, heq⟩
  · rw [heq]
    exact hcap
  · rw [heq, List.length_take]
    exact min_le_left _ _

lemma handleGenerate_valid_ok_eval {s : AppData} {now : Nat}
    {responses : Nat → ApiResponse} {g : Nat → GenImage}
    (hv : validInputs s = true)
    (hok : ∀ i, i < s.numberOfImages →
      executeImageGeneration (responses i) = Except.ok (g i)) :
    ∃ requests : List (List Part),
      requests.length = s.numberOfImages ∧
      handleGenerate s now responses =
        ⟨{ s with
            error := none
            history := ({ id := now,
                            images := (List.range s.numberOfImages).map
                              (fun i => displayUrl (g i)),
                            prompt := currentPromptOf s, mode := s.mode,
                            characterImage := s.characterImage,
                            productImage := s.productImage,
                            outfitImage := s.outfitImage,
                            backgroundImage := s.backgroundImage } :: s.history).take 10
            resultImages := (List.range s.numberOfImages).map (fun i => displayUrl (g i))
            appState := AppPhase.Result }, requests⟩ := by
  have hval : validationError { s with error := none } = none := validationError_eq_none hv
  rcases mode_of_validInputs hv with hm | hm
  · obtain ⟨cu, cp, pu, pp, op, hc, hcp, hp, hpp, ho⟩ := validInputs_character hv hm
    have hbuild : ∀ i, buildTask { s with error := none }
        (currentPromptOf { s with error := none }) (responses i) =
        Except.ok (generateCharacterPlacementImage cp pp op
          (currentPromptOf { s with error := none })
          s.aspectRatio s.customWidth s.customHeight (responses i)) :=
      fun i => buildTask_eval_character hm hc hcp hp hpp ho _ _
    have heval := @handleGenerate_success_eval s now responses _ g hval hbuild
      (fun i hi => generateCharacter_snd_ok_iff.mpr (hok i (List.mem_range.mp hi)))
      (fun i hi => execOk_data_ne (hok i (List.mem_range.mp hi)))
    exact ⟨_, by simp, heval⟩
  · obtain ⟨pu, pp, bp, hp, hpp, hb, -⟩ := validInputs_product hv hm
    have hm' : ¬s.mode = "character" := by rw [hm]; decide
    have hbuild : ∀ i, buildTask { s with error := none }
        (currentPromptOf { s with error := none }) (responses i) =
        Except.ok (generateProductConceptImage pp bp
          (currentPromptOf { s with error := none })
          s.aspectRatio s.customWidth s.customHeight (responses i)) :=
      fun i => buildTask_eval_product hm' hp hpp hb _ _
    have heval := @handleGenerate_success_eval s now responses _ g hval hbuild
      (fun i hi => generateProduct_snd_ok_iff.mpr (hok i (List.mem_range.mp hi)))
      (fun i hi => execOk_data_ne (hok i (List.mem_range.mp hi)))
    exact ⟨_, by simp, heval⟩

/-- C4: the history list never exceeds 10 entries (every generate call
preserves the bound, and `handleStartOver` leaves history untouched);
each successful generation inserts its new HistoryItem — carrying
`Date.now()` as id — at the front; and after 11 successful generations
in one session the 1st generation's entry is absent from history while
the 11th generation's entry is at index 0 (ids here are the
generation numbers 1..11). -/
theorem history_capped_most_recent_first (s : AppData) (now : Nat)
    (responses : Nat → ApiResponse) (g : Nat → GenImage)
    (hv : validInputs s = true)
    (hok : ∀ i, i < s.numberOfImages →
      executeImageGeneration (responses i) = Except.ok (g i)) :
    (∀ (s₂ : AppData) (now₂ : Nat) (responses₂ : Nat → ApiResponse),
      s₂.history.length ≤ 10 →
        (handleGenerate s₂ now₂ responses₂).state.history.length ≤ 10 ∧
        (handleStartOver s₂).history.length ≤ 10) ∧
    (∃ item : HistoryItem, item.id = now ∧
      (handleGenerate s now responses).state.history = (item :: s.history).take 10 ∧
      (handleGenerate s now responses).state.history.head? = some item) ∧
    ((genSession demoAppData 11).history.map (fun x => x.id) =
        [11, 10, 9, 8, 7, 6, 5, 4, 3, 2] ∧
      (genSession demoAppData 11).history.head?.map (fun x => x.id) = some 11 ∧
      ∀ x ∈ (genSession demoAppData 11).history, x.id ≠ 1) := by
  refine ⟨fun s₂ now₂ responses₂ hcap =>
    ⟨handleGenerate_history_le s₂ now₂ responses₂ hcap, hcap⟩, ?_, ?_⟩
  · obtain ⟨requests, hlen, heq⟩ := handleGenerate_valid_ok_eval hv hok
    refine ⟨{ id := now,
                images := (List.range s.numberOfImages).map (fun i => displayUrl (g i)),
                prompt := currentPromptOf s, mode := s.mode,
                characterImage := s.characterImage, productImage := s.productImage,
                outfitImage := s.outfitImage, backgroundImage := s.backgroundImage },
      rfl, ?_, ?_⟩
    · rw [heq]
    · rw [heq]
      rfl
  · exact ⟨by decide, by decide, by decide⟩

/-- C4 witness: one successful generation from the demo session keeps
the bound and puts the fresh entry (id 7) at the front. -/
theorem history_capped_most_recent_first_witness :
    (handleGenerate demoAppData 7 (fun _ => successResponse)).state.history.length ≤ 10 ∧
    (handleGenerate demoAppData 7
      (fun _ => successResponse)).state.history.head?.map (fun x => x.id) = some 7 := by
  have h := history_capped_most_recent_first demoAppData 7 (fun _ => successResponse)
    (fun _ => ⟨"IMG", "image/png"⟩) (by decide) (fun i _ => by rfl)
  refine ⟨(h.1 demoAppData 7 (fun _ => successResponse) (by decide)).1, ?_⟩
  obtain ⟨item, hid, -, hhead⟩ := h.2.1
  rw [hhead]
  simp [hid]

end Lemino
